import Mathlib

/-!
# EVAL-AD7746EB host driver: register access, readiness poll, acquisition

A shallow embedding of `eval_ad7746eb.c`.  The program talks to the outside
through three primitives: `libusb_control_transfer`, `gettimeofday` and
`usleep` (plus `fprintf(stderr, ...)`).  They are modelled by an explicit
environment `World` (what the device and the clock answer) and an explicit
`State` that records every call the program makes, so that "how many transfers
were issued" and "how many sleeps happened" are ordinary facts about values.

Conventions.
* `uint8_t` values are `Nat` (below 256 at every call site), `int` and `long`
  values are `Int`.  An `int` product that can leave the 32-bit range goes
  through `wrap32`, the `long` time difference goes through `wrap64`.
* A pointer argument that may be `NULL` is an `Option` holding the pointee.
* The `while(1)` loop of `wait_for_ready` takes a fuel argument (the number of
  iterations it may run); `none` means the fuel ran out.
-/

namespace EvalAD7746EB

/-! ## Constants (lines 21-50) -/

/-- The compile-time switch `#define ENABLE_TEMPERATURE` (line 21). -/
def ENABLE_TEMPERATURE : Bool := true

def AD7746_SLAVE_ADDR : Nat := 0x48

def AD7746_REG_RESET : Nat := 0xBF
def AD7746_REG_STATUS : Nat := 0x00
def AD7746_REG_CAP_DATA_H : Nat := 0x01
def AD7746_REG_CAP_DATA_M : Nat := 0x02
def AD7746_REG_CAP_DATA_L : Nat := 0x03
def AD7746_REG_VT_DATA_H : Nat := 0x04
def AD7746_REG_VT_DATA_M : Nat := 0x05
def AD7746_REG_VT_DATA_L : Nat := 0x06
def AD7746_REG_CAP_SETUP : Nat := 0x07
def AD7746_REG_VT_SETUP : Nat := 0x08
def AD7746_REG_EXC_SETUP : Nat := 0x09
def AD7746_REG_CONFIG : Nat := 0x0A
def AD7746_REG_CAPDAC_A : Nat := 0x0B
def AD7746_REG_CAPDAC_B : Nat := 0x0C

/-- From `libusb.h`: `LIBUSB_REQUEST_TYPE_VENDOR = (0x02 << 5)`. -/
def LIBUSB_REQUEST_TYPE_VENDOR : Nat := 0x02 <<< 5
/-- From `libusb.h`: `LIBUSB_ENDPOINT_IN = 0x80`. -/
def LIBUSB_ENDPOINT_IN : Nat := 0x80
/-- From `libusb.h`: `LIBUSB_ENDPOINT_OUT = 0x00`. -/
def LIBUSB_ENDPOINT_OUT : Nat := 0x00

def CTRL_IN : Nat := LIBUSB_REQUEST_TYPE_VENDOR ||| LIBUSB_ENDPOINT_IN
def CTRL_OUT : Nat := LIBUSB_REQUEST_TYPE_VENDOR ||| LIBUSB_ENDPOINT_OUT

/-- Extended I2C, 8-bit register index. -/
def VR_I2C1 : Nat := 0xDD

/-! ## Machine arithmetic -/

/-- Value of a 32-bit two's-complement `int` holding `x`. -/
def wrap32 (x : Int) : Int := (x + 2147483648) % 4294967296 - 2147483648

/-- Value of a 64-bit two's-complement `long` holding `x`. -/
def wrap64 (x : Int) : Int :=
  (x + 9223372036854775808) % 18446744073709551616 - 9223372036854775808

/-! ## Environment and recorded state -/

/-- One call of `libusb_control_transfer` as the program issued it.  `data` is
the payload sent by a host-to-device transfer and `[]` for a device-to-host
one. -/
structure Xfer where
  bmRequestType : Nat
  bRequest : Nat
  wValue : Nat
  wIndex : Nat
  data : List Nat
  wLength : Nat
  timeout : Nat
deriving DecidableEq

/-- What the transport answers to one transfer: the `int` that
`libusb_control_transfer` returns (bytes moved, or a negative error) and the
bytes the device sends for a device-to-host transfer. -/
structure Reply where
  ret : Int
  byte : Nat → Nat

/-- The `struct timeval` of `sys/time.h`. -/
structure Timeval where
  tv_sec : Int
  tv_usec : Int
deriving DecidableEq

/-- The simulated environment: `transport n x` answers the transfer `x` issued
as the `n`-th call (counting from 0), `clock n` is the reading of the `n`-th
`gettimeofday` call, and `junk` is the indeterminate initial content of
uninitialised local buffers. -/
structure World where
  transport : Nat → Xfer → Reply
  clock : Nat → Timeval
  junk : Nat → Nat

/-- The diagnostics the program prints on `stderr`, with their `%d` argument. -/
inductive Diag where
  | failedReadRegister (r : Int)
  | shortRead (r : Int)
  | failedWriteRegister (r : Int)
  | shortWrite (r : Int)
  | failedStatusReg
  | failedDriveEXC
  | timeoutWaiting
  | failedDataRegisters
  | failedFirstSample
deriving DecidableEq

/-- Everything the program has done to the outside so far: the transfers it
issued (oldest first), how many times it read the clock, the arguments of its
`usleep` calls (oldest first) and what it printed on `stderr`. -/
structure State where
  xfers : List Xfer
  ticks : Nat
  sleeps : List Nat
  err : List Diag
deriving DecidableEq

/-- The state of a program that has not done anything yet. -/
def State.init : State := { xfers := [], ticks := 0, sleeps := [], err := [] }

/-- Models `fprintf(stderr, ...)`. -/
def State.log (s : State) (d : Diag) : State := { s with err := s.err ++ [d] }

/-- Models `usleep(usec)`. -/
def usleep (usec : Nat) (s : State) : State := { s with sleeps := s.sleeps ++ [usec] }

/-- Models `gettimeofday(&t, NULL)`. -/
def gettimeofday (W : World) (s : State) : Timeval × State :=
  (W.clock s.ticks, { s with ticks := s.ticks + 1 })

/-- The buffer `data` after a device-to-host transfer that moved `n` bytes:
its first `n` bytes are the bytes received, the rest is unchanged. -/
def fillBuf (data : List Nat) (byte : Nat → Nat) (n : Nat) : List Nat :=
  (List.range data.length).map (fun i => if i < n then byte i % 256 else data.getD i 0)

/-- Models the library primitive `libusb_control_transfer(devh, bmRequestType,
bRequest, wValue, wIndex, data, wLength, timeout)`: the call is recorded, the
environment supplies the result, and a device-to-host transfer stores the
received bytes (at most `wLength` of them) in `data`. -/
def libusb_control_transfer (W : World) (bmRequestType bRequest wValue wIndex : Nat)
    (data : List Nat) (wLength timeout : Nat) (s : State) : Int × List Nat × State :=
  let isIn : Bool := bmRequestType &&& LIBUSB_ENDPOINT_IN != 0
  let x : Xfer :=
    { bmRequestType := bmRequestType, bRequest := bRequest, wValue := wValue,
      wIndex := wIndex, data := if isIn then [] else data.take wLength,
      wLength := wLength, timeout := timeout }
  let rp := W.transport s.xfers.length x
  let data1 := if isIn then fillBuf data rp.byte (min rp.ret.toNat wLength) else data
  (rp.ret, data1, { s with xfers := s.xfers ++ [x] })

/-! ## Register access layer (lines 64-115) -/

/-- Lines 66-82. -/
def read_regs (W : World) (slave_addr reg_addr : Nat) (data : List Nat) (len : Nat)
    (s : State) : Int × List Nat × State :=
  let p := libusb_control_transfer W CTRL_IN VR_I2C1 ((slave_addr <<< 1) % 65536)
    reg_addr data len 0 s
  let r := p.1
  if r < 0 then
    (r, p.2.1, p.2.2.log (.failedReadRegister r))
  else if r.toNat < len then
    (-1, p.2.1, p.2.2.log (.shortRead r))
  else
    (0, p.2.1, p.2.2)

/-- Lines 86-103. -/
def write_regs (W : World) (slave_addr reg_addr : Nat) (data : List Nat) (len : Nat)
    (s : State) : Int × State :=
  let p := libusb_control_transfer W CTRL_OUT VR_I2C1 ((slave_addr <<< 1) % 65536)
    reg_addr data len 0 s
  let r := p.1
  if r < 0 then
    (r, p.2.2.log (.failedWriteRegister r))
  else if r.toNat < len then
    (-1, p.2.2.log (.shortWrite r))
  else
    (0, p.2.2)

/-- Lines 105-110.  The local `data` is uninitialised before the read. -/
def read_reg (W : World) (slave_addr reg_addr : Nat) (s : State) : Int × State :=
  let p := read_regs W slave_addr reg_addr [W.junk 0 % 256] 1 s
  let ret := p.1
  (if ret < 0 then ret else (p.2.1.getD 0 0 : Nat), p.2.2)

/-- Lines 112-115. -/
def write_reg (W : World) (slave_addr reg_addr data : Nat) (s : State) : Int × State :=
  write_regs W slave_addr reg_addr [data] 1 s

/-! ## Readiness poller (lines 200-232) -/

/-- Line 221: `(t1.tv_sec-t0.tv_sec)*1000000 + t1.tv_usec - t0.tv_usec` in
`long` arithmetic. -/
def elapsed_usec (t0 t1 : Timeval) : Int :=
  wrap64 (wrap64 (wrap64 (wrap64 (t1.tv_sec - t0.tv_sec) * 1000000) + t1.tv_usec) - t0.tv_usec)

/-- The body of `while(1)` (lines 205-231), run at most `fuel` times. -/
def wait_for_ready_loop (W : World) (timeout_msec : Int) (t0 : Timeval) :
    Nat → State → Option (Int × State)
  | 0, _ => none
  | fuel + 1, s =>
    let p := read_reg W AD7746_SLAVE_ADDR AD7746_REG_STATUS s
    let status := p.1
    if status < 0 then
      some (-1, p.2.log .failedStatusReg)
    else if status.toNat &&& 0x4 = 0 then
      some (0, p.2)
    else
      let s1 := if status.toNat &&& 0x8 ≠ 0 then p.2.log .failedDriveEXC else p.2
      let q := gettimeofday W s1
      let diff := elapsed_usec t0 q.1
      if diff > wrap32 (1000 * timeout_msec) then
        some (-1, q.2.log .timeoutWaiting)
      else
        wait_for_ready_loop W timeout_msec t0 fuel (usleep (10 * 1000) q.2)

/-- Lines 200-232. -/
def wait_for_ready (W : World) (timeout_msec : Int) (fuel : Nat) (s : State) :
    Option (Int × State) :=
  let q := gettimeofday W s
  wait_for_ready_loop W timeout_msec q.1 fuel q.2

/-! ## Unit converter (lines 234-243), over exact rational arithmetic -/

/-- Lines 234-238, with the `float` operations taken as exact. -/
def raw_to_capacitance (raw : Int) : ℚ :=
  let scale : ℚ := (8.192e-12 : ℚ) / (((1 <<< 24 : Nat) : Int) : ℚ)
  scale * ((raw - 0x800000 : Int) : ℚ)

/-- Lines 240-243, with the floating-point operations taken as exact. -/
def raw_to_temperature (raw : Int) : ℚ :=
  ((raw : ℚ) / (2048.0 : ℚ)) - (4096.0 : ℚ)

/-! ## Acquisition pipeline (lines 245-289) -/

/-- Lines 278-280 and 283-285: `x = b0; x <<= 8; x |= b1; x <<= 8; x |= b2;`.
With bytes below 256 the value stays below `2^24`, inside `int`. -/
def assemble24 (b0 b1 b2 : Nat) : Int :=
  (((((b0 <<< 8) ||| b1) <<< 8) ||| b2 : Nat) : Int)

/-- Lines 247-289.  `cap` and `temp` are the two output pointers: `none` is
`NULL`, `some v` points to an `int` currently holding `v`.  The result carries
the return value and the pointees after the call. -/
def get_data (W : World) (cap temp : Option Int) (timeout_msec : Int) (fuel : Nat)
    (s : State) : Option (Int × Option Int × Option Int × State) :=
  if cap.isNone && temp.isNone then
    some (0, cap, temp, s)
  else
    match wait_for_ready W timeout_msec fuel s with
    | none => none
    | some (ret, s1) =>
      if ret ≠ 0 then
        some (ret, cap, temp, s1)
      else
        let addr : Nat :=
          if cap.isSome && temp.isSome then AD7746_REG_CAP_DATA_H
          else if cap.isSome && !temp.isSome then AD7746_REG_CAP_DATA_H
          else AD7746_REG_VT_DATA_H
        let len : Nat :=
          if cap.isSome && temp.isSome then 6
          else if cap.isSome && !temp.isSome then 3
          else 3
        let data0 : List Nat := (List.range 6).map (fun i => W.junk (i + 1) % 256)
        let p := read_regs W AD7746_SLAVE_ADDR addr data0 len s1
        if p.1 < 0 then
          some (-1, cap, temp, p.2.2.log .failedDataRegisters)
        else
          let data := p.2.1
          let cap1 := cap.map (fun _ =>
            assemble24 (data.getD 0 0) (data.getD 1 0) (data.getD 2 0))
          let temp1 := temp.map (fun _ =>
            assemble24 (data.getD (len - 3) 0) (data.getD (len - 2) 0) (data.getD (len - 1) 0))
          some (0, cap1, temp1, p.2.2)

/-! ## Device configuration sequencer (lines 336-381) -/

/-- Lines 336-381.  The results of the `write_reg` calls are discarded, as in
the source; only the state is threaded through. -/
def config_ad7746 (W : World) (s : State) : Int × State :=
  let s1 := (write_reg W AD7746_SLAVE_ADDR AD7746_REG_RESET 0 s).2
  let s2 := usleep 500 s1
  let s3 := (write_reg W AD7746_SLAVE_ADDR AD7746_REG_EXC_SETUP 0x63 s2).2
  let s4 := (write_reg W AD7746_SLAVE_ADDR AD7746_REG_CAPDAC_A (0x49 ||| 0x80) s3).2
  let s5 := (write_reg W AD7746_SLAVE_ADDR AD7746_REG_CAPDAC_B (0x49 ||| 0x80) s4).2
  let s6 := if ENABLE_TEMPERATURE then
      (write_reg W AD7746_SLAVE_ADDR AD7746_REG_VT_SETUP 0x81 s5).2
    else s5
  let s7 := (write_reg W AD7746_SLAVE_ADDR AD7746_REG_CAP_SETUP 0xA0 s6).2
  let s8 := (write_reg W AD7746_SLAVE_ADDR AD7746_REG_CONFIG 0xF9 s7).2
  let s9 := usleep (300 * 1000) s8
  let p := read_reg W AD7746_SLAVE_ADDR AD7746_REG_STATUS s9
  let status := p.1
  if status < 0 then
    (-1, p.2.log .failedStatusReg)
  else if status = 0 then
    (0, p.2)
  else
    let t1 := if status.toNat &&& 0x8 ≠ 0 then p.2.log .failedDriveEXC else p.2
    let t2 := if status.toNat &&& 0x4 ≠ 0 then t1.log .failedFirstSample else t1
    (-1, t2)

/-! ## Vocabulary of the statements -/

/-- The transfer that `read_regs slave_addr reg_addr _ len` issues. -/
def readReq (slave_addr reg_addr len : Nat) : Xfer :=
  { bmRequestType := CTRL_IN, bRequest := VR_I2C1, wValue := (slave_addr <<< 1) % 65536,
    wIndex := reg_addr, data := [], wLength := len, timeout := 0 }

/-- The transfer that `write_regs slave_addr reg_addr data len` issues. -/
def writeReq (slave_addr reg_addr : Nat) (data : List Nat) (len : Nat) : Xfer :=
  { bmRequestType := CTRL_OUT, bRequest := VR_I2C1, wValue := (slave_addr <<< 1) % 65536,
    wIndex := reg_addr, data := data.take len, wLength := len, timeout := 0 }

/-- The transfer of one status-register read. -/
def statusReq : Xfer := readReq AD7746_SLAVE_ADDR AD7746_REG_STATUS 1

/-- The status byte the device sends when the `n`-th transfer is a status read. -/
def statusByte (W : World) (n : Nat) : Nat := (W.transport n statusReq).byte 0 % 256

/-- The return value of the transport when the `n`-th transfer is a status read. -/
def statusRet (W : World) (n : Nat) : Int := (W.transport n statusReq).ret

/-- Microseconds denoted by a `struct timeval`. -/
def Timeval.usec (t : Timeval) : Int := t.tv_sec * 1000000 + t.tv_usec

/-- A `struct timeval` as `gettimeofday` produces it, early enough for its
microsecond count to fit in a `long`. -/
def Timeval.Valid (t : Timeval) : Prop :=
  0 ≤ t.tv_sec ∧ t.tv_sec < 8796093022208 ∧ 0 ≤ t.tv_usec ∧ t.tv_usec < 1000000

/-- A transport that moves exactly the number of bytes asked for, every byte
read being `b`. -/
def constWorld (b : Nat) : World :=
  { transport := fun _ x => { ret := x.wLength, byte := fun _ => b },
    clock := fun _ => { tv_sec := 0, tv_usec := 0 },
    junk := fun _ => 0 }

/-- Like `constWorld 0`, except that the `k`-th transfer fails with `-1`
(`LIBUSB_ERROR_IO`). -/
def failAtWorld (k : Nat) : World :=
  { transport := fun n x => { ret := if n = k then -1 else x.wLength, byte := fun _ => 0 },
    clock := fun _ => { tv_sec := 0, tv_usec := 0 },
    junk := fun _ => 0 }

/-- The seven register writes of `config_ad7746`, in program order. -/
def configWrites : List Xfer :=
  [ writeReq AD7746_SLAVE_ADDR AD7746_REG_RESET [0] 1,
    writeReq AD7746_SLAVE_ADDR AD7746_REG_EXC_SETUP [0x63] 1,
    writeReq AD7746_SLAVE_ADDR AD7746_REG_CAPDAC_A [0xC9] 1,
    writeReq AD7746_SLAVE_ADDR AD7746_REG_CAPDAC_B [0xC9] 1,
    writeReq AD7746_SLAVE_ADDR AD7746_REG_VT_SETUP [0x81] 1,
    writeReq AD7746_SLAVE_ADDR AD7746_REG_CAP_SETUP [0xA0] 1,
    writeReq AD7746_SLAVE_ADDR AD7746_REG_CONFIG [0xF9] 1 ]

/-- The state `config_ad7746` has reached after line 365, just before it reads
the status register. -/
def configWritten (W : World) (s : State) : State :=
  let s1 := (write_reg W AD7746_SLAVE_ADDR AD7746_REG_RESET 0 s).2
  let s2 := usleep 500 s1
  let s3 := (write_reg W AD7746_SLAVE_ADDR AD7746_REG_EXC_SETUP 0x63 s2).2
  let s4 := (write_reg W AD7746_SLAVE_ADDR AD7746_REG_CAPDAC_A (0x49 ||| 0x80) s3).2
  let s5 := (write_reg W AD7746_SLAVE_ADDR AD7746_REG_CAPDAC_B (0x49 ||| 0x80) s4).2
  let s6 := (write_reg W AD7746_SLAVE_ADDR AD7746_REG_VT_SETUP 0x81 s5).2
  let s7 := (write_reg W AD7746_SLAVE_ADDR AD7746_REG_CAP_SETUP 0xA0 s6).2
  let s8 := (write_reg W AD7746_SLAVE_ADDR AD7746_REG_CONFIG 0xF9 s7).2
  usleep (300 * 1000) s8

/-- A simulated clock that starts at 0 and advances by `step_usec` with every
sleep of the poll loop: reading 0 is the start of the poll, and reading `n + 1`
is taken after `n` sleeps. -/
def stepClock (step_usec : Nat) (n : Nat) : Timeval :=
  { tv_sec := (((n - 1) * step_usec / 1000000 : Nat) : Int),
    tv_usec := (((n - 1) * step_usec % 1000000 : Nat) : Int) }

/-- A simulated device whose `n`-th transfer succeeds in full and delivers the
`n`-th byte of `statuses` (0 past the end) in every position, on the clock
`stepClock step_usec`. -/
def pollWorld (statuses : List Nat) (step_usec : Nat) : World :=
  { transport := fun n x => { ret := x.wLength, byte := fun _ => statuses.getD n 0 },
    clock := stepClock step_usec,
    junk := fun _ => 0 }

/-- A simulated device that is never ready: every transfer succeeds in full
and every byte read is `0x4` (conversion in progress), on the clock
`stepClock step_usec`. -/
def busyWorld (step_usec : Nat) : World :=
  { transport := fun _ x => { ret := x.wLength, byte := fun _ => 0x4 },
    clock := stepClock step_usec,
    junk := fun _ => 0 }

instance (t : Timeval) : Decidable t.Valid := by
  unfold Timeval.Valid
  infer_instance

/-- What the poll loop prints for a not-ready status `b`: the excitation
diagnostic when bit 0x8 is set, nothing otherwise (lines 217-218). -/
def faultDiag (b : Nat) : List Diag := if b &&& 0x8 ≠ 0 then [Diag.failedDriveEXC] else []

/-- The state of the poll loop after an iteration that read a not-ready status
and then read the clock (lines 207-222): one more status read, one more clock
reading, and the excitation diagnostic if the fault bit was set. -/
def polled (W : World) (s : State) : State :=
  { xfers := s.xfers ++ [statusReq], ticks := s.ticks + 1, sleeps := s.sleeps,
    err := s.err ++ faultDiag (statusByte W s.xfers.length) }

/-- What an outside observer sees of a finished poll: the return value, the
transfers issued, the number of clock readings and the sleeps (everything but
the text printed on `stderr`). -/
def observe (p : Int × State) : Int × List Xfer × Nat × List Nat :=
  (p.1, p.2.xfers, p.2.ticks, p.2.sleeps)

/-- The big-endian 24-bit value of the three bytes that a reply carries from
position `i` on: `b[i]<<16 | b[i+1]<<8 | b[i+2]`. -/
def rawOf (rp : Reply) (i : Nat) : Int :=
  ((((rp.byte i % 256) <<< 16) ||| ((rp.byte (i + 1) % 256) <<< 8)
    ||| (rp.byte (i + 2) % 256) : Nat) : Int)

/-- The register read that `get_data` issues for the data, by the channels
requested: 6 bytes from 0x01 for both, 3 bytes from 0x01 for capacitance only,
3 bytes from 0x04 for temperature only. -/
def dataReq (cap temp : Option Int) : Xfer :=
  readReq AD7746_SLAVE_ADDR (if cap.isSome then 0x01 else 0x04)
    (if cap.isSome && temp.isSome then 6 else 3)

/-- A simulated device with a register file: every transfer succeeds in full,
and a read starting at register `wIndex` delivers the registers from there on
(0 past the end of `regs`). -/
def regfileWorld (regs : List Nat) : World :=
  { transport := fun _ x => { ret := x.wLength, byte := fun i => regs.getD (x.wIndex + i) 0 },
    clock := fun _ => { tv_sec := 0, tv_usec := 0 },
    junk := fun _ => 0 }

/-- Like `regfileWorld`, except that the transfer number `k` moves only
`moved` bytes (or fails, when `moved` is negative). -/
def shortWorld (regs : List Nat) (k : Nat) (moved : Int) : World :=
  { transport := fun n x =>
      { ret := if n = k then moved else x.wLength,
        byte := fun i => regs.getD (x.wIndex + i) 0 },
    clock := fun _ => { tv_sec := 0, tv_usec := 0 },
    junk := fun _ => 0 }

/-! ## Theorems -/

theorem read_regs_eq (W : World) (slave_addr reg_addr : Nat) (data : List Nat) (len : Nat)
    (s : State) :
    read_regs W slave_addr reg_addr data len s =
      (let rp := W.transport s.xfers.length (readReq slave_addr reg_addr len)
       let d := fillBuf data rp.byte (min rp.ret.toNat len)
       let s1 : State := { s with xfers := s.xfers ++ [readReq slave_addr reg_addr len] }
       if rp.ret < 0 then (rp.ret, d, s1.log (.failedReadRegister rp.ret))
       else if rp.ret.toNat < len then (-1, d, s1.log (.shortRead rp.ret))
       else (0, d, s1)) := rfl

theorem write_regs_eq (W : World) (slave_addr reg_addr : Nat) (data : List Nat) (len : Nat)
    (s : State) :
    write_regs W slave_addr reg_addr data len s =
      (let rp := W.transport s.xfers.length (writeReq slave_addr reg_addr data len)
       let s1 : State := { s with xfers := s.xfers ++ [writeReq slave_addr reg_addr data len] }
       if rp.ret < 0 then (rp.ret, s1.log (.failedWriteRegister rp.ret))
       else if rp.ret.toNat < len then (-1, s1.log (.shortWrite rp.ret))
       else (0, s1)) := rfl

theorem read_regs_xfers (W : World) (slave_addr reg_addr : Nat) (data : List Nat) (len : Nat)
    (s : State) :
    (read_regs W slave_addr reg_addr data len s).2.2.xfers
      = s.xfers ++ [readReq slave_addr reg_addr len] := by
  rw [read_regs_eq]
  simp only []
  split_ifs <;> rfl

theorem write_regs_xfers (W : World) (slave_addr reg_addr : Nat) (data : List Nat) (len : Nat)
    (s : State) :
    (write_regs W slave_addr reg_addr data len s).2.xfers
      = s.xfers ++ [writeReq slave_addr reg_addr data len] := by
  rw [write_regs_eq]
  simp only []
  split_ifs <;> rfl

/-- C1, counterexample: for the out-of-range lengths 0 and 65, with a
transport that moves the bytes asked for, `read_regs` and `write_regs` do not
return an error and do issue a transport call: each returns 0 after issuing
exactly one transfer of that length. -/
theorem regs_length_counterexample :
    ¬ ((read_regs (constWorld 0) AD7746_SLAVE_ADDR 0 [] 0 State.init).1 < 0) ∧
    (read_regs (constWorld 0) AD7746_SLAVE_ADDR 0 [] 0 State.init).1 = 0 ∧
    (read_regs (constWorld 0) AD7746_SLAVE_ADDR 0 [] 0 State.init).2.2.xfers
      = [readReq AD7746_SLAVE_ADDR 0 0] ∧
    ¬ ((write_regs (constWorld 0) AD7746_SLAVE_ADDR 0 [] 0 State.init).1 < 0) ∧
    (write_regs (constWorld 0) AD7746_SLAVE_ADDR 0 [] 0 State.init).1 = 0 ∧
    (write_regs (constWorld 0) AD7746_SLAVE_ADDR 0 [] 0 State.init).2.xfers
      = [writeReq AD7746_SLAVE_ADDR 0 [] 0] ∧
    ¬ ((read_regs (constWorld 0) AD7746_SLAVE_ADDR 0 (List.replicate 65 0) 65
        State.init).1 < 0) ∧
    (read_regs (constWorld 0) AD7746_SLAVE_ADDR 0 (List.replicate 65 0) 65 State.init).1 = 0 ∧
    (read_regs (constWorld 0) AD7746_SLAVE_ADDR 0 (List.replicate 65 0) 65
        State.init).2.2.xfers = [readReq AD7746_SLAVE_ADDR 0 65] ∧
    ¬ ((write_regs (constWorld 0) AD7746_SLAVE_ADDR 0 (List.replicate 65 0) 65
        State.init).1 < 0) ∧
    (write_regs (constWorld 0) AD7746_SLAVE_ADDR 0 (List.replicate 65 0) 65 State.init).1 = 0 ∧
    (write_regs (constWorld 0) AD7746_SLAVE_ADDR 0 (List.replicate 65 0) 65
        State.init).2.xfers.length = 1 := by
  refine ⟨by decide, by decide, by decide, by decide, by decide, by decide,
    by decide, by decide, by decide, by decide, by decide, by decide⟩

/-! ### Unit converter -/

theorem raw_to_capacitance_eq (r : Int) :
    raw_to_capacitance r = (8192 / 1000000000000000 / 16777216 : ℚ) * ((r : ℚ) - 8388608) := by
  have h : (1 <<< 24 : Nat) = 16777216 := by decide
  simp only [raw_to_capacitance, h]
  norm_num

/-- C6: over exact arithmetic, for every raw `r` in `[0, 2^24-1]`,
`raw_to_capacitance r = (8.192e-12 / 2^24) * (r - 2^23)`; the mid-scale code
8388608 decodes to exactly 0; the function is strictly increasing on the
domain; and `r = 8388609` gives 4.8828125e-19. -/
theorem raw_to_capacitance_spec :
    (∀ r : Int, 0 ≤ r → r ≤ 2 ^ 24 - 1 →
        raw_to_capacitance r = ((8.192e-12 : ℚ) / 2 ^ 24) * ((r : ℚ) - 2 ^ 23)) ∧
    raw_to_capacitance 8388608 = 0 ∧
    (∀ r1 r2 : Int, 0 ≤ r1 → r1 < r2 → r2 ≤ 2 ^ 24 - 1 →
        raw_to_capacitance r1 < raw_to_capacitance r2) ∧
    raw_to_capacitance 8388609 = (4.8828125e-19 : ℚ) := by
  refine ⟨?_, ?_, ?_, ?_⟩
  · intro r _ _
    rw [raw_to_capacitance_eq]
    norm_num
  · rw [raw_to_capacitance_eq]
    norm_num
  · intro r1 r2 _ h _
    rw [raw_to_capacitance_eq, raw_to_capacitance_eq]
    have h1 : (r1 : ℚ) < (r2 : ℚ) := by exact_mod_cast h
    have hs : (0 : ℚ) < 8192 / 1000000000000000 / 16777216 := by norm_num
    exact mul_lt_mul_of_pos_left (by linarith) hs
  · rw [raw_to_capacitance_eq]
    norm_num

/-- Witness of C6 at `r = 8388608`, `r1 = 8388608`, `r2 = 8388609`. -/
theorem raw_to_capacitance_spec_witness :
    raw_to_capacitance 8388608 = ((8.192e-12 : ℚ) / 2 ^ 24) * (((8388608 : Int) : ℚ) - 2 ^ 23) ∧
    raw_to_capacitance 8388608 < raw_to_capacitance 8388609 :=
  ⟨raw_to_capacitance_spec.1 8388608 (by decide) (by decide),
   raw_to_capacitance_spec.2.2.1 8388608 8388609 (by decide) (by decide) (by decide)⟩

theorem raw_to_temperature_eq (r : Int) :
    raw_to_temperature r = (r : ℚ) / 2048 - 4096 := by
  unfold raw_to_temperature
  norm_num

/-- C7: over exact arithmetic, for every raw `r` in `[0, 2^24-1]`,
`raw_to_temperature r = r/2048 - 4096`; `raw_to_temperature (4096*2048) = 0`;
whenever `r` and `r+2048` are both in the domain the two values differ by
exactly 1; and the bytes `[0x80, 0x00, 0x00]` assemble to raw 8388608, which
decodes to 0 degrees. -/
theorem raw_to_temperature_spec :
    (∀ r : Int, 0 ≤ r → r ≤ 2 ^ 24 - 1 →
        raw_to_temperature r = (r : ℚ) / 2048 - 4096) ∧
    raw_to_temperature (4096 * 2048) = 0 ∧
    (∀ r : Int, 0 ≤ r → r + 2048 ≤ 2 ^ 24 - 1 →
        raw_to_temperature (r + 2048) - raw_to_temperature r = 1) ∧
    assemble24 0x80 0x00 0x00 = 8388608 ∧
    raw_to_temperature (assemble24 0x80 0x00 0x00) = 0 := by
  refine ⟨?_, ?_, ?_, ?_, ?_⟩
  · intro r _ _
    exact raw_to_temperature_eq r
  · rw [raw_to_temperature_eq]
    norm_num
  · intro r _ _
    rw [raw_to_temperature_eq, raw_to_temperature_eq]
    push_cast
    ring
  · decide
  · have h : assemble24 0x80 0x00 0x00 = 8388608 := by decide
    rw [h, raw_to_temperature_eq]
    norm_num

/-- Witness of C7 at `r = 8388608`. -/
theorem raw_to_temperature_spec_witness :
    raw_to_temperature 8388608 = ((8388608 : Int) : ℚ) / 2048 - 4096 ∧
    raw_to_temperature (8388608 + 2048) - raw_to_temperature 8388608 = 1 :=
  ⟨raw_to_temperature_spec.1 8388608 (by decide) (by decide),
   raw_to_temperature_spec.2.2.1 8388608 (by decide) (by decide)⟩

/-! ### Single-register access -/

theorem read_reg_eq (W : World) (slave_addr reg_addr : Nat) (s : State) :
    read_reg W slave_addr reg_addr s =
      (let rp := W.transport s.xfers.length (readReq slave_addr reg_addr 1)
       let s1 : State := { s with xfers := s.xfers ++ [readReq slave_addr reg_addr 1] }
       if rp.ret < 0 then (rp.ret, s1.log (.failedReadRegister rp.ret))
       else if rp.ret < 1 then (-1, s1.log (.shortRead rp.ret))
       else (((rp.byte 0 % 256 : Nat) : Int), s1)) := by
  unfold read_reg
  rw [read_regs_eq]
  simp only []
  by_cases h0 : (W.transport s.xfers.length (readReq slave_addr reg_addr 1)).ret < 0
  · simp [h0]
  · by_cases h1 : (W.transport s.xfers.length (readReq slave_addr reg_addr 1)).ret < 1
    · have h2 : (W.transport s.xfers.length (readReq slave_addr reg_addr 1)).ret.toNat < 1 := by
        omega
      simp [h0, h1, h2]
    · have h2 : ¬ (W.transport s.xfers.length (readReq slave_addr reg_addr 1)).ret.toNat < 1 := by
        omega
      have h3 : min (W.transport s.xfers.length (readReq slave_addr reg_addr 1)).ret.toNat 1 = 1 := by
        omega
      simp [h0, h1, h2, h3, fillBuf]

theorem read_reg_ok (W : World) (slave_addr reg_addr : Nat) (s : State)
    (h : 1 ≤ (W.transport s.xfers.length (readReq slave_addr reg_addr 1)).ret) :
    read_reg W slave_addr reg_addr s =
      ((((W.transport s.xfers.length (readReq slave_addr reg_addr 1)).byte 0 % 256 : Nat) : Int),
        { s with xfers := s.xfers ++ [readReq slave_addr reg_addr 1] }) := by
  rw [read_reg_eq]
  simp only []
  rw [if_neg (by omega), if_neg (by omega)]

theorem read_reg_fail (W : World) (slave_addr reg_addr : Nat) (s : State)
    (h : (W.transport s.xfers.length (readReq slave_addr reg_addr 1)).ret < 1) :
    (read_reg W slave_addr reg_addr s).1 < 0 := by
  rw [read_reg_eq]
  simp only []
  split_ifs with h0
  · exact h0
  · show (-1 : Int) < 0
    decide

theorem write_reg_xfers (W : World) (slave_addr reg_addr data : Nat) (s : State) :
    (write_reg W slave_addr reg_addr data s).2.xfers
      = s.xfers ++ [writeReq slave_addr reg_addr [data] 1] :=
  write_regs_xfers W slave_addr reg_addr [data] 1 s

/-! ### Configuration sequencer -/

theorem config_ad7746_eq (W : World) (s : State) :
    config_ad7746 W s =
      (let p := read_reg W AD7746_SLAVE_ADDR AD7746_REG_STATUS (configWritten W s)
       if p.1 < 0 then (-1, p.2.log .failedStatusReg)
       else if p.1 = 0 then (0, p.2)
       else
         let t1 := if p.1.toNat &&& 0x8 ≠ 0 then p.2.log .failedDriveEXC else p.2
         let t2 := if p.1.toNat &&& 0x4 ≠ 0 then t1.log .failedFirstSample else t1
         (-1, t2)) := rfl

theorem configWritten_xfers (W : World) (s : State) :
    (configWritten W s).xfers = s.xfers ++ configWrites := by
  simp [configWritten, usleep, write_reg_xfers, configWrites]

theorem configWritten_length (W : World) (s : State) :
    (configWritten W s).xfers.length = s.xfers.length + 7 := by
  rw [configWritten_xfers]
  simp [configWrites]

theorem config_ad7746_xfers (W : World) (s : State) :
    (config_ad7746 W s).2.xfers = s.xfers ++ configWrites ++ [statusReq] := by
  have hx : (read_reg W AD7746_SLAVE_ADDR AD7746_REG_STATUS (configWritten W s)).2.xfers
      = s.xfers ++ configWrites ++ [statusReq] := by
    rw [read_reg_eq]
    simp only []
    split_ifs <;> simp [State.log, configWritten_xfers, statusReq]
  rw [config_ad7746_eq]
  simp only []
  split_ifs <;> simpa [State.log] using hx

/-- C8: the final status read of `config_ad7746` is the transfer number
`s.xfers.length + 7`.  When it succeeds (the transport moves the byte) with
status `b`, the sequence returns 0 if and only if `b = 0` and returns -1 for
every non-zero `b`, whatever its bits 0x4 and 0x8; when it fails (negative
result or no byte moved), the sequence returns -1. -/
theorem config_ad7746_status (W : World) (s : State) :
    (1 ≤ statusRet W (s.xfers.length + 7) →
        ((config_ad7746 W s).1 = 0 ↔ statusByte W (s.xfers.length + 7) = 0) ∧
        (statusByte W (s.xfers.length + 7) ≠ 0 → (config_ad7746 W s).1 = -1)) ∧
    (statusRet W (s.xfers.length + 7) < 1 → (config_ad7746 W s).1 = -1) := by
  constructor
  · intro h
    have hr := read_reg_ok W AD7746_SLAVE_ADDR AD7746_REG_STATUS (configWritten W s)
      (by rw [configWritten_length]; exact h)
    rw [configWritten_length] at hr
    rw [config_ad7746_eq]
    simp only []
    rw [hr]
    simp only []
    have hb : ¬ (((W.transport (s.xfers.length + 7)
        (readReq AD7746_SLAVE_ADDR AD7746_REG_STATUS 1)).byte 0 % 256 : Nat) : Int) < 0 := by
      omega
    rw [if_neg hb]
    unfold statusByte statusReq
    by_cases hz : (W.transport (s.xfers.length + 7)
        (readReq AD7746_SLAVE_ADDR AD7746_REG_STATUS 1)).byte 0 % 256 = 0
    · simp [hz]
    · have hz1 : ¬ (((W.transport (s.xfers.length + 7)
          (readReq AD7746_SLAVE_ADDR AD7746_REG_STATUS 1)).byte 0 % 256 : Nat) : Int) = 0 := by
        omega
      rw [if_neg hz1]
      simp [hz]
  · intro h
    have hr := read_reg_fail W AD7746_SLAVE_ADDR AD7746_REG_STATUS (configWritten W s)
      (by rw [configWritten_length]; exact h)
    rw [config_ad7746_eq]
    simp only []
    rw [if_pos hr]

/-- Witness of C8: status 0 gives success, status 0x4 gives failure, and a
failed status read (transfer number 7 fails) gives failure. -/
theorem config_ad7746_status_witness :
    (1 ≤ statusRet (constWorld 0) (State.init.xfers.length + 7) ∧
      ((config_ad7746 (constWorld 0) State.init).1 = 0 ↔
        statusByte (constWorld 0) (State.init.xfers.length + 7) = 0)) ∧
    (1 ≤ statusRet (constWorld 4) (State.init.xfers.length + 7) ∧
      statusByte (constWorld 4) (State.init.xfers.length + 7) ≠ 0 ∧
      (config_ad7746 (constWorld 4) State.init).1 = -1) ∧
    (statusRet (failAtWorld 7) (State.init.xfers.length + 7) < 1 ∧
      (config_ad7746 (failAtWorld 7) State.init).1 = -1) :=
  ⟨⟨by decide, ((config_ad7746_status (constWorld 0) State.init).1 (by decide)).1⟩,
   ⟨by decide, by decide,
     ((config_ad7746_status (constWorld 4) State.init).1 (by decide)).2 (by decide)⟩,
   ⟨by decide, (config_ad7746_status (failAtWorld 7) State.init).2 (by decide)⟩⟩

/-- C9 (the code does not abort on a failed configuration write): whatever the
transport answers, `config_ad7746` issues all seven register writes and then
the status read; and when any one of the seven writes fails with -1 while the
status read returns 0, `config_ad7746` still returns 0 (success) after issuing
all eight transfers, having printed only the write diagnostic. -/
theorem config_ad7746_ignores_write_failure :
    (∀ (W : World) (s : State),
        (config_ad7746 W s).2.xfers = s.xfers ++ configWrites ++ [statusReq]) ∧
    (∀ k : Fin 7,
        (config_ad7746 (failAtWorld k) State.init).1 = 0 ∧
        (config_ad7746 (failAtWorld k) State.init).2.xfers.length = 8 ∧
        (config_ad7746 (failAtWorld k) State.init).2.err = [Diag.failedWriteRegister (-1)]) :=
  ⟨config_ad7746_xfers, by decide⟩

/-! ### Readiness poller -/

/-- One iteration of the poll loop, in terms of what the transport answers to
the status read and of the clock reading. -/
theorem wait_for_ready_loop_succ (W : World) (timeout_msec : Int) (t0 : Timeval) (fuel : Nat)
    (s : State) :
    wait_for_ready_loop W timeout_msec t0 (fuel + 1) s =
      (let s1 : State := { s with xfers := s.xfers ++ [statusReq] }
       if statusRet W s.xfers.length < 0 then
         some (-1, (s1.log (.failedReadRegister (statusRet W s.xfers.length))).log
           .failedStatusReg)
       else if statusRet W s.xfers.length < 1 then
         some (-1, (s1.log (.shortRead (statusRet W s.xfers.length))).log .failedStatusReg)
       else if statusByte W s.xfers.length &&& 0x4 = 0 then
         some (0, s1)
       else if elapsed_usec t0 (W.clock s.ticks) > wrap32 (1000 * timeout_msec) then
         some (-1, (polled W s).log .timeoutWaiting)
       else
         wait_for_ready_loop W timeout_msec t0 fuel (usleep (10 * 1000) (polled W s))) := by
  rw [wait_for_ready_loop, read_reg_eq]
  simp only [statusRet, statusByte, statusReq, polled, faultDiag]
  by_cases h0 : (W.transport s.xfers.length (readReq AD7746_SLAVE_ADDR AD7746_REG_STATUS 1)).ret < 0
  · simp [h0]
  · by_cases h1 : (W.transport s.xfers.length
        (readReq AD7746_SLAVE_ADDR AD7746_REG_STATUS 1)).ret < 1
    · simp [h0, h1]
    · simp only [if_neg h0, if_neg h1]
      have hb : ¬ (((W.transport s.xfers.length
          (readReq AD7746_SLAVE_ADDR AD7746_REG_STATUS 1)).byte 0 % 256 : Nat) : Int) < 0 := by
        omega
      simp only [if_neg hb, Int.toNat_ofNat]
      by_cases h4 : (W.transport s.xfers.length
          (readReq AD7746_SLAVE_ADDR AD7746_REG_STATUS 1)).byte 0 % 256 &&& 0x4 = 0
      · simp only [if_pos h4]
      · simp only [if_neg h4]
        by_cases h8 : (W.transport s.xfers.length
            (readReq AD7746_SLAVE_ADDR AD7746_REG_STATUS 1)).byte 0 % 256 &&& 0x8 = 0
        · simp [h8, gettimeofday, State.log]
        · simp [h8, gettimeofday, State.log]

theorem wrap32_of_range (x : Int) (h0 : -2147483648 ≤ x) (h1 : x ≤ 2147483647) :
    wrap32 x = x := by
  unfold wrap32
  omega

theorem elapsed_usec_of_valid (t0 t1 : Timeval) (h0 : t0.Valid) (h1 : t1.Valid) :
    elapsed_usec t0 t1 = t1.usec - t0.usec := by
  unfold Timeval.Valid at h0 h1
  unfold elapsed_usec wrap64 Timeval.usec
  omega

/-- Why the poll loop stopped: it read a ready status, or a status read
failed, or the elapsed time it measured after a not-ready status exceeded the
timeout. -/
theorem wait_for_ready_loop_exit (W : World) (timeout_msec : Int) (t0 : Timeval) :
    ∀ (fuel : Nat) (s : State) (r : Int) (s1 : State),
      wait_for_ready_loop W timeout_msec t0 fuel s = some (r, s1) →
      s.xfers.length < s1.xfers.length ∧ s.ticks ≤ s1.ticks ∧
      ((r = 0 ∧ 1 ≤ statusRet W (s1.xfers.length - 1) ∧
          statusByte W (s1.xfers.length - 1) &&& 0x4 = 0) ∨
       (r = -1 ∧ statusRet W (s1.xfers.length - 1) < 1) ∨
       (r = -1 ∧ s.ticks < s1.ticks ∧ 1 ≤ statusRet W (s1.xfers.length - 1) ∧
          statusByte W (s1.xfers.length - 1) &&& 0x4 ≠ 0 ∧
          elapsed_usec t0 (W.clock (s1.ticks - 1)) > wrap32 (1000 * timeout_msec) ∧
          s1.err.getLast? = some Diag.timeoutWaiting)) := by
  intro fuel
  induction fuel with
  | zero =>
    intro s r s1 h
    simp [wait_for_ready_loop] at h
  | succ f ih =>
    intro s r s1 h
    rw [wait_for_ready_loop_succ] at h
    simp only [] at h
    by_cases h0 : statusRet W s.xfers.length < 0
    · rw [if_pos h0] at h
      simp only [Option.some.injEq, Prod.mk.injEq] at h
      obtain ⟨rfl, rfl⟩ := h
      refine ⟨by simp [State.log], by simp [State.log], Or.inr (Or.inl ⟨rfl, ?_⟩)⟩
      simp [State.log]; omega
    · rw [if_neg h0] at h
      by_cases h1 : statusRet W s.xfers.length < 1
      · rw [if_pos h1] at h
        simp only [Option.some.injEq, Prod.mk.injEq] at h
        obtain ⟨rfl, rfl⟩ := h
        refine ⟨by simp [State.log], by simp [State.log], Or.inr (Or.inl ⟨rfl, ?_⟩)⟩
        simp [State.log]; omega
      · rw [if_neg h1] at h
        by_cases h4 : statusByte W s.xfers.length &&& 0x4 = 0
        · rw [if_pos h4] at h
          simp only [Option.some.injEq, Prod.mk.injEq] at h
          obtain ⟨rfl, rfl⟩ := h
          refine ⟨by simp, by simp, Or.inl ⟨rfl, ?_, ?_⟩⟩
          · simp; omega
          · simpa using h4
        · rw [if_neg h4] at h
          by_cases hexp : elapsed_usec t0 (W.clock s.ticks) > wrap32 (1000 * timeout_msec)
          · rw [if_pos hexp] at h
            simp only [Option.some.injEq, Prod.mk.injEq] at h
            obtain ⟨rfl, rfl⟩ := h
            refine ⟨by simp [State.log, polled], by simp [State.log, polled],
              Or.inr (Or.inr ⟨rfl, ?_, ?_, ?_, ?_, ?_⟩)⟩
            · simp [State.log, polled]
            · simp [State.log, polled]; omega
            · simpa [State.log, polled] using h4
            · simpa [State.log, polled] using hexp
            · simp [State.log]
          · rw [if_neg hexp] at h
            have e1 : (usleep (10 * 1000) (polled W s)).xfers = s.xfers ++ [statusReq] := rfl
            have e2 : (usleep (10 * 1000) (polled W s)).ticks = s.ticks + 1 := rfl
            obtain ⟨a1, a2, a3⟩ := ih _ r s1 h
            rw [e1] at a1
            rw [e2] at a2 a3
            simp only [List.length_append, List.length_singleton] at a1
            refine ⟨by omega, by omega, ?_⟩
            rcases a3 with a | a | ⟨b1, b2, b3⟩
            · exact Or.inl a
            · exact Or.inr (Or.inl a)
            · exact Or.inr (Or.inr ⟨b1, by omega, b3⟩)

theorem stepClock_usec (step_usec n : Nat) :
    (stepClock step_usec n).usec = (((n - 1) * step_usec : Nat) : Int) := by
  unfold Timeval.usec stepClock
  simp only []
  have h := Nat.div_add_mod ((n - 1) * step_usec) 1000000
  omega

theorem stepClock_mono (step_usec : Nat) (m n : Nat) (h : m ≤ n) :
    (stepClock step_usec m).usec ≤ (stepClock step_usec n).usec := by
  rw [stepClock_usec, stepClock_usec]
  have : (m - 1) * step_usec ≤ (n - 1) * step_usec :=
    Nat.mul_le_mul_right _ (by omega)
  exact_mod_cast this

/-- C5: with status reads that all succeed and never show ready, valid clock
readings, a non-decreasing clock and a timeout `timeout_msec >= 0` whose
product by 1000 fits in `int`: whenever `wait_for_ready` returns, it returns
-1 through the timeout exit (last diagnostic "Timeout waiting for ready!"),
after at least two clock readings, and the elapsed time between the start
reading and the last reading is strictly greater than `1000 * timeout_msec`
microseconds, as is the elapsed time at every later instant. -/
theorem wait_for_ready_timeout_not_early (W : World) (timeout_msec : Int) (fuel : Nat)
    (s : State) (r : Int) (s1 : State)
    (hok : ∀ n, 1 ≤ statusRet W n)
    (hbusy : ∀ n, statusByte W n &&& 0x4 ≠ 0)
    (hvalid : ∀ n, n < s1.ticks → (W.clock n).Valid)
    (hmono : ∀ m n, m ≤ n → (W.clock m).usec ≤ (W.clock n).usec)
    (ht : 0 ≤ timeout_msec) (hovf : 1000 * timeout_msec ≤ 2147483647)
    (hret : wait_for_ready W timeout_msec fuel s = some (r, s1)) :
    r = -1 ∧ s1.err.getLast? = some Diag.timeoutWaiting ∧ s.ticks + 2 ≤ s1.ticks ∧
      1000 * timeout_msec < (W.clock (s1.ticks - 1)).usec - (W.clock s.ticks).usec ∧
      ∀ n, s1.ticks - 1 ≤ n →
        1000 * timeout_msec < (W.clock n).usec - (W.clock s.ticks).usec := by
  unfold wait_for_ready at hret
  obtain ⟨_, a2, a3⟩ :=
    wait_for_ready_loop_exit W timeout_msec (W.clock s.ticks) fuel _ r s1 hret
  have e2 : (gettimeofday W s).2.ticks = s.ticks + 1 := rfl
  rw [e2] at a2 a3
  rcases a3 with ⟨_, _, b⟩ | ⟨_, b⟩ | ⟨b1, b2, _, _, b5, b6⟩
  · exact absurd b (hbusy _)
  · have := hok (s1.xfers.length - 1)
    omega
  · have hv0 : (W.clock s.ticks).Valid := hvalid _ (by omega)
    have hv1 : (W.clock (s1.ticks - 1)).Valid := hvalid _ (by omega)
    rw [elapsed_usec_of_valid _ _ hv0 hv1,
      wrap32_of_range _ (by omega) hovf] at b5
    refine ⟨b1, b6, by omega, by omega, ?_⟩
    intro n hn
    have := hmono _ _ hn
    omega

/-- Witness of C5: a device that is never ready, a clock advancing 10 ms per
sleep and a 50 ms timeout.  The poll returns -1 at its 7th clock reading after
the start, 60 ms after the start, having slept 6 times. -/
theorem wait_for_ready_timeout_not_early_witness :
    wait_for_ready (busyWorld 10000) 50 7 State.init
      = some (-1, { xfers := List.replicate 7 statusReq, ticks := 8,
                    sleeps := List.replicate 6 10000, err := [Diag.timeoutWaiting] }) ∧
    (1000 * 50 : Int) <
      ((busyWorld 10000).clock (8 - 1)).usec - ((busyWorld 10000).clock 0).usec ∧
    ((busyWorld 10000).clock (8 - 1)).usec - ((busyWorld 10000).clock 0).usec = 60000 :=
  ⟨by decide,
   (wait_for_ready_timeout_not_early (busyWorld 10000) 50 7 State.init (-1)
     { xfers := List.replicate 7 statusReq, ticks := 8,
       sleeps := List.replicate 6 10000, err := [Diag.timeoutWaiting] }
     (fun _ => le_refl _)
     (fun _ => by
       show (0x4 % 256 &&& 0x4 : Nat) ≠ 0
       decide)
     (fun n hn => by
       have hn8 : n < 8 := hn
       interval_cases n <;> decide)
     (fun m n h => stepClock_mono 10000 m n h)
     (by decide) (by decide) (by decide)).2.2.2.1,
   by decide⟩

theorem and_4_of_and_F7 (a b : Nat) (h : a &&& 0xF7 = b &&& 0xF7) : a &&& 0x4 = b &&& 0x4 := by
  have h1 : ∀ x : Nat, x &&& 0x4 = (x &&& 0xF7) &&& 0x4 := by
    intro x
    have h2 : (0xF7 &&& 0x4 : Nat) = 0x4 := by decide
    rw [Nat.and_assoc, h2]
  rw [h1 a, h1 b, h]

theorem wait_for_ready_loop_fault_irrelevant (W1 W2 : World) (timeout_msec : Int) (t0 : Timeval)
    (hclock : ∀ n, W1.clock n = W2.clock n)
    (hok1 : ∀ n, 1 ≤ statusRet W1 n) (hok2 : ∀ n, 1 ≤ statusRet W2 n)
    (hbit : ∀ n, statusByte W1 n &&& 0x4 = statusByte W2 n &&& 0x4) :
    ∀ (fuel : Nat) (sa sb : State), sa.xfers = sb.xfers → sa.ticks = sb.ticks →
      sa.sleeps = sb.sleeps →
      (wait_for_ready_loop W1 timeout_msec t0 fuel sa).map observe
        = (wait_for_ready_loop W2 timeout_msec t0 fuel sb).map observe := by
  intro fuel
  induction fuel with
  | zero =>
    intro sa sb _ _ _
    rfl
  | succ f ih =>
    intro sa sb hx ht hs
    have hlen : sa.xfers.length = sb.xfers.length := by rw [hx]
    have a0 : ¬ statusRet W1 sa.xfers.length < 0 := by have := hok1 sa.xfers.length; omega
    have a1 : ¬ statusRet W1 sa.xfers.length < 1 := by have := hok1 sa.xfers.length; omega
    have b0 : ¬ statusRet W2 sb.xfers.length < 0 := by have := hok2 sb.xfers.length; omega
    have b1 : ¬ statusRet W2 sb.xfers.length < 1 := by have := hok2 sb.xfers.length; omega
    rw [wait_for_ready_loop_succ, wait_for_ready_loop_succ]
    simp only []
    rw [if_neg a0, if_neg a1, if_neg b0, if_neg b1]
    have h4 := hbit sa.xfers.length
    rw [hlen] at h4
    rw [hlen, ht, hclock]
    by_cases hr : statusByte W2 sb.xfers.length &&& 0x4 = 0
    · rw [if_pos hr, if_pos (h4.trans hr)]
      simp [observe, hx, ht, hs]
    · rw [if_neg hr, if_neg (by rw [h4]; exact hr)]
      by_cases hexp : elapsed_usec t0 (W2.clock sb.ticks) > wrap32 (1000 * timeout_msec)
      · rw [if_pos hexp, if_pos hexp]
        simp [observe, State.log, polled, hx, ht, hs]
      · rw [if_neg hexp, if_neg hexp]
        exact ih _ _ (by simp [usleep, polled, hx]) (by simp [usleep, polled, ht])
          (by simp [usleep, polled, hs])

/-- C10: take two devices whose status reads all succeed and whose status
bytes differ at most in bit 0x8 (so they agree on bit 0x4), with the same
clock.  Then `wait_for_ready` gives the same outcome on both: the same return
value after the same transfers, clock readings and sleeps, or no return within
the fuel on both.  Moreover an iteration that reads a not-ready status with
the fault bit set, before the timeout, goes on to the next iteration after one
sleep of 10 ms; and a poll that returns does so because the last status read
showed ready (return 0), or failed (return -1), or the elapsed time measured
after a not-ready status exceeded the timeout (return -1). -/
theorem wait_for_ready_fault_bit_irrelevant (W1 W2 : World) (timeout_msec : Int) (fuel : Nat)
    (s : State)
    (hclock : ∀ n, W1.clock n = W2.clock n)
    (hok1 : ∀ n, 1 ≤ statusRet W1 n) (hok2 : ∀ n, 1 ≤ statusRet W2 n)
    (hbits : ∀ n, statusByte W1 n &&& 0xF7 = statusByte W2 n &&& 0xF7) :
    (wait_for_ready W1 timeout_msec fuel s).map observe
        = (wait_for_ready W2 timeout_msec fuel s).map observe ∧
    (∀ (t0 : Timeval) (s0 : State),
        statusByte W1 s0.xfers.length &&& 0x4 ≠ 0 →
        statusByte W1 s0.xfers.length &&& 0x8 ≠ 0 →
        ¬ elapsed_usec t0 (W1.clock s0.ticks) > wrap32 (1000 * timeout_msec) →
        wait_for_ready_loop W1 timeout_msec t0 (fuel + 1) s0
          = wait_for_ready_loop W1 timeout_msec t0 fuel (usleep (10 * 1000) (polled W1 s0)) ∧
        (polled W1 s0).err = s0.err ++ [Diag.failedDriveEXC]) ∧
    (∀ (r : Int) (s1 : State), wait_for_ready W1 timeout_msec fuel s = some (r, s1) →
        (r = 0 ∧ 1 ≤ statusRet W1 (s1.xfers.length - 1) ∧
          statusByte W1 (s1.xfers.length - 1) &&& 0x4 = 0) ∨
        (r = -1 ∧ statusRet W1 (s1.xfers.length - 1) < 1) ∨
        (r = -1 ∧ statusByte W1 (s1.xfers.length - 1) &&& 0x4 ≠ 0 ∧
          elapsed_usec (W1.clock s.ticks) (W1.clock (s1.ticks - 1))
            > wrap32 (1000 * timeout_msec))) := by
  refine ⟨?_, ?_, ?_⟩
  · unfold wait_for_ready
    simp only [gettimeofday]
    rw [hclock]
    exact wait_for_ready_loop_fault_irrelevant W1 W2 timeout_msec _ hclock hok1 hok2
      (fun n => and_4_of_and_F7 _ _ (hbits n)) fuel _ _ rfl rfl rfl
  · intro t0 s0 h4 h8 hexp
    have a0 : ¬ statusRet W1 s0.xfers.length < 0 := by have := hok1 s0.xfers.length; omega
    have a1 : ¬ statusRet W1 s0.xfers.length < 1 := by have := hok1 s0.xfers.length; omega
    constructor
    · rw [wait_for_ready_loop_succ]
      simp only []
      rw [if_neg a0, if_neg a1, if_neg h4, if_neg hexp]
    · simp [polled, faultDiag, h8]
  · intro r s1 h
    unfold wait_for_ready at h
    obtain ⟨_, _, a3⟩ :=
      wait_for_ready_loop_exit W1 timeout_msec (W1.clock s.ticks) fuel _ r s1 h
    rcases a3 with a | a | ⟨b1, _, _, b4, b5, _⟩
    · exact Or.inl a
    · exact Or.inr (Or.inl a)
    · exact Or.inr (Or.inr ⟨b1, b4, b5⟩)

/-- Witness of C10: the status sequences `[0xC, 0x4, 0x8]` (fault bit set in
the first and last status) and `[0x4, 0x4, 0x0]` on the same 10 ms clock with
a 50 ms timeout: both polls return 0 after 3 status reads and 2 sleeps; the
first iteration of the faulty one prints the excitation diagnostic and goes on
polling. -/
theorem wait_for_ready_fault_bit_irrelevant_witness :
    (wait_for_ready (pollWorld [0xC, 0x4, 0x8] 10000) 50 5 State.init).map observe
        = (wait_for_ready (pollWorld [0x4, 0x4, 0x0] 10000) 50 5 State.init).map observe ∧
    (wait_for_ready (pollWorld [0xC, 0x4, 0x8] 10000) 50 5 State.init).map observe
        = some (0, [statusReq, statusReq, statusReq], 3, [10000, 10000]) ∧
    (wait_for_ready_loop (pollWorld [0xC, 0x4, 0x8] 10000) 50 (stepClock 10000 0) (5 + 1)
          State.init
        = wait_for_ready_loop (pollWorld [0xC, 0x4, 0x8] 10000) 50 (stepClock 10000 0) 5
            (usleep (10 * 1000) (polled (pollWorld [0xC, 0x4, 0x8] 10000) State.init)) ∧
      (polled (pollWorld [0xC, 0x4, 0x8] 10000) State.init).err
        = State.init.err ++ [Diag.failedDriveEXC]) :=
  ⟨(wait_for_ready_fault_bit_irrelevant (pollWorld [0xC, 0x4, 0x8] 10000)
      (pollWorld [0x4, 0x4, 0x0] 10000) 50 5 State.init
      (fun _ => rfl) (fun _ => le_refl _) (fun _ => le_refl _)
      (fun n => by
        rcases n with _ | _ | _ | n
        · decide
        · decide
        · decide
        · rfl)).1,
   by decide,
   (wait_for_ready_fault_bit_irrelevant (pollWorld [0xC, 0x4, 0x8] 10000)
      (pollWorld [0x4, 0x4, 0x0] 10000) 50 5 State.init
      (fun _ => rfl) (fun _ => le_refl _) (fun _ => le_refl _)
      (fun n => by
        rcases n with _ | _ | _ | n
        · decide
        · decide
        · decide
        · rfl)).2.1 (stepClock 10000 0) State.init (by decide) (by decide) (by decide)⟩

/-! ### Acquisition pipeline -/

theorem shiftLeft_or (a b n : Nat) : (a ||| b) <<< n = a <<< n ||| b <<< n := by
  apply Nat.eq_of_testBit_eq
  intro i
  simp only [Nat.testBit_or, Nat.testBit_shiftLeft]
  by_cases h : n ≤ i <;> simp [h]

theorem assemble24_eq (b0 b1 b2 : Nat) :
    assemble24 b0 b1 b2 = (((b0 <<< 16) ||| (b1 <<< 8) ||| b2 : Nat) : Int) := by
  unfold assemble24
  rw [shiftLeft_or, ← Nat.shiftLeft_add]

theorem rawOf_range (rp : Reply) (i : Nat) : 0 ≤ rawOf rp i ∧ rawOf rp i ≤ 2 ^ 24 - 1 := by
  unfold rawOf
  have h0 : rp.byte i % 256 < 256 := Nat.mod_lt _ (by decide)
  have h1 : rp.byte (i + 1) % 256 < 256 := Nat.mod_lt _ (by decide)
  have h2 : rp.byte (i + 2) % 256 < 256 := Nat.mod_lt _ (by decide)
  have h : ((rp.byte i % 256) <<< 16) ||| ((rp.byte (i + 1) % 256) <<< 8)
      ||| (rp.byte (i + 2) % 256) < 2 ^ 24 := by
    apply Nat.or_lt_two_pow
    · apply Nat.or_lt_two_pow
      · rw [Nat.shiftLeft_eq]; omega
      · rw [Nat.shiftLeft_eq]; omega
    · omega
  constructor
  · exact Int.ofNat_nonneg _
  · have : ((2 : Int) ^ 24) = ((2 ^ 24 : Nat) : Int) := by norm_num
    omega

theorem fillBuf_getD (data : List Nat) (byte : Nat → Nat) (n i : Nat) (hi : i < n)
    (hl : i < data.length) : (fillBuf data byte n).getD i 0 = byte i % 256 := by
  unfold fillBuf
  simp [List.getElem?_range hl, hi]

/-- What `get_data` does once the poll has returned 0: one `read_regs` call,
then the split of the buffer. -/
theorem get_data_after_poll (W : World) (cap temp : Option Int) (timeout_msec : Int)
    (fuel : Nat) (s s1 : State) (hreq : cap.isSome ∨ temp.isSome)
    (hw : wait_for_ready W timeout_msec fuel s = some (0, s1)) :
    get_data W cap temp timeout_msec fuel s =
      (let len : Nat := if cap.isSome && temp.isSome then 6 else 3
       let p := read_regs W AD7746_SLAVE_ADDR (if cap.isSome then 0x01 else 0x04)
         ((List.range 6).map (fun i => W.junk (i + 1) % 256)) len s1
       if p.1 < 0 then some (-1, cap, temp, p.2.2.log .failedDataRegisters)
       else some (0,
         cap.map (fun _ => assemble24 (p.2.1.getD 0 0) (p.2.1.getD 1 0) (p.2.1.getD 2 0)),
         temp.map (fun _ => assemble24 (p.2.1.getD (len - 3) 0) (p.2.1.getD (len - 2) 0)
           (p.2.1.getD (len - 1) 0)),
         p.2.2)) := by
  unfold get_data
  rw [hw]
  cases cap <;> cases temp <;> simp_all <;> rfl

/-- The outcome of the data read of `get_data` when the transport moves all
the bytes asked for. -/
theorem read_regs_full (W : World) (reg_addr : Nat) (data : List Nat) (len : Nat) (s : State)
    (hfull : (len : Int) ≤ (W.transport s.xfers.length
      (readReq AD7746_SLAVE_ADDR reg_addr len)).ret) :
    read_regs W AD7746_SLAVE_ADDR reg_addr data len s =
      (0, fillBuf data (W.transport s.xfers.length
          (readReq AD7746_SLAVE_ADDR reg_addr len)).byte len,
        { s with xfers := s.xfers ++ [readReq AD7746_SLAVE_ADDR reg_addr len] }) := by
  rw [read_regs_eq]
  simp only []
  rw [if_neg (by omega), if_neg (by omega)]
  have : min (W.transport s.xfers.length
      (readReq AD7746_SLAVE_ADDR reg_addr len)).ret.toNat len = len := by omega
  rw [this]

/-- The outcome of the data read of `get_data` when the transport fails or
moves fewer bytes than asked for. -/
theorem read_regs_short (W : World) (slave_addr reg_addr : Nat) (data : List Nat) (len : Nat)
    (s : State)
    (hshort : (W.transport s.xfers.length (readReq slave_addr reg_addr len)).ret < len) :
    (read_regs W slave_addr reg_addr data len s).1 < 0 ∧
      (0 ≤ (W.transport s.xfers.length (readReq slave_addr reg_addr len)).ret →
        (read_regs W slave_addr reg_addr data len s).1 = -1) := by
  rw [read_regs_eq]
  simp only []
  by_cases h0 : (W.transport s.xfers.length (readReq slave_addr reg_addr len)).ret < 0
  · rw [if_pos h0]
    exact ⟨h0, fun h => by omega⟩
  · rw [if_neg h0, if_pos (by omega)]
    exact ⟨show (-1 : Int) < 0 by decide, fun _ => rfl⟩

/-- C2: once the poll of `get_data` has returned 0 in state `s1` (a ready
status), and the transport moves all the bytes asked for, `get_data` issues
exactly one more transfer, the register read `(0x01, 6)` for both channels,
`(0x01, 3)` for capacitance only and `(0x04, 3)` for temperature only, and
returns 0 with capacitance raw `b[0]<<16 | b[1]<<8 | b[2]` and temperature raw
the same assembly of the last three bytes returned (`b[3..5]` for both
channels, `b[0..2]` for temperature only); every such raw value lies in
`[0, 2^24-1]`. -/
theorem get_data_single_read (W : World) (timeout_msec : Int) (fuel : Nat) (s s1 : State)
    (c t : Int) (hw : wait_for_ready W timeout_msec fuel s = some (0, s1)) :
    (6 ≤ (W.transport s1.xfers.length (readReq AD7746_SLAVE_ADDR 0x01 6)).ret →
      get_data W (some c) (some t) timeout_msec fuel s =
        some (0,
          some (rawOf (W.transport s1.xfers.length (readReq AD7746_SLAVE_ADDR 0x01 6)) 0),
          some (rawOf (W.transport s1.xfers.length (readReq AD7746_SLAVE_ADDR 0x01 6)) 3),
          { s1 with xfers := s1.xfers ++ [readReq AD7746_SLAVE_ADDR 0x01 6] })) ∧
    (3 ≤ (W.transport s1.xfers.length (readReq AD7746_SLAVE_ADDR 0x01 3)).ret →
      get_data W (some c) none timeout_msec fuel s =
        some (0,
          some (rawOf (W.transport s1.xfers.length (readReq AD7746_SLAVE_ADDR 0x01 3)) 0),
          none,
          { s1 with xfers := s1.xfers ++ [readReq AD7746_SLAVE_ADDR 0x01 3] })) ∧
    (3 ≤ (W.transport s1.xfers.length (readReq AD7746_SLAVE_ADDR 0x04 3)).ret →
      get_data W none (some t) timeout_msec fuel s =
        some (0,
          none,
          some (rawOf (W.transport s1.xfers.length (readReq AD7746_SLAVE_ADDR 0x04 3)) 0),
          { s1 with xfers := s1.xfers ++ [readReq AD7746_SLAVE_ADDR 0x04 3] })) ∧
    (∀ (rp : Reply) (i : Nat), 0 ≤ rawOf rp i ∧ rawOf rp i ≤ 2 ^ 24 - 1) := by
  refine ⟨?_, ?_, ?_, rawOf_range⟩
  · intro hfull
    rw [get_data_after_poll W (some c) (some t) timeout_msec fuel s s1 (Or.inl rfl) hw]
    simp only [Option.isSome_some, Bool.and_self, if_true]
    rw [read_regs_full W 0x01 _ 6 s1 hfull]
    simp only [lt_self_iff_false, if_false, Option.map_some', assemble24_eq]
    rw [fillBuf_getD _ _ 6 0 (by decide) (by simp), fillBuf_getD _ _ 6 1 (by decide) (by simp),
      fillBuf_getD _ _ 6 2 (by decide) (by simp), fillBuf_getD _ _ 6 3 (by decide) (by simp),
      fillBuf_getD _ _ 6 4 (by decide) (by simp), fillBuf_getD _ _ 6 5 (by decide) (by simp)]
    rfl
  · intro hfull
    rw [get_data_after_poll W (some c) none timeout_msec fuel s s1 (Or.inl rfl) hw]
    simp only [Option.isSome_some, Option.isSome_none, Bool.and_false, Bool.false_eq_true,
      reduceIte]
    rw [read_regs_full W 0x01 _ 3 s1 hfull]
    simp only [lt_self_iff_false, if_false, Option.map_some', Option.map_none', assemble24_eq]
    rw [fillBuf_getD _ _ 3 0 (by decide) (by simp), fillBuf_getD _ _ 3 1 (by decide) (by simp),
      fillBuf_getD _ _ 3 2 (by decide) (by simp)]
    rfl
  · intro hfull
    rw [get_data_after_poll W none (some t) timeout_msec fuel s s1 (Or.inr rfl) hw]
    simp only [Option.isSome_some, Option.isSome_none, Bool.false_and, Bool.false_eq_true,
      reduceIte]
    rw [read_regs_full W 0x04 _ 3 s1 hfull]
    simp only [lt_self_iff_false, if_false, Option.map_some', Option.map_none', assemble24_eq]
    rw [fillBuf_getD _ _ 3 0 (by decide) (by simp), fillBuf_getD _ _ 3 1 (by decide) (by simp),
      fillBuf_getD _ _ 3 2 (by decide) (by simp)]
    rfl

/-- Witness of C2: a device whose registers 0x00..0x06 hold
`[0x00, 0x80, 0x00, 0x01, 0x80, 0x00, 0x00]`: the status is ready, the poll
issues one status read, and `get_data` for both channels issues the single
read `(0x01, 6)`, giving capacitance raw 8388609 and temperature raw
8388608. -/
theorem get_data_single_read_witness :
    wait_for_ready (regfileWorld [0x00, 0x80, 0x00, 0x01, 0x80, 0x00, 0x00]) 300 1 State.init
      = some (0, { xfers := [statusReq], ticks := 1, sleeps := [], err := [] }) ∧
    get_data (regfileWorld [0x00, 0x80, 0x00, 0x01, 0x80, 0x00, 0x00]) (some 0) (some 0) 300 1
        State.init
      = some (0,
          some (rawOf ((regfileWorld [0x00, 0x80, 0x00, 0x01, 0x80, 0x00, 0x00]).transport
            ({ xfers := [statusReq], ticks := 1, sleeps := [], err := [] } : State).xfers.length
            (readReq AD7746_SLAVE_ADDR 0x01 6)) 0),
          some (rawOf ((regfileWorld [0x00, 0x80, 0x00, 0x01, 0x80, 0x00, 0x00]).transport
            ({ xfers := [statusReq], ticks := 1, sleeps := [], err := [] } : State).xfers.length
            (readReq AD7746_SLAVE_ADDR 0x01 6)) 3),
          { ({ xfers := [statusReq], ticks := 1, sleeps := [], err := [] } : State) with
            xfers := ({ xfers := [statusReq], ticks := 1, sleeps := [], err := [] } : State).xfers
              ++ [readReq AD7746_SLAVE_ADDR 0x01 6] }) ∧
    get_data (regfileWorld [0x00, 0x80, 0x00, 0x01, 0x80, 0x00, 0x00]) (some 0) (some 0) 300 1
        State.init
      = some (0, some 8388609, some 8388608,
          { xfers := [statusReq, readReq AD7746_SLAVE_ADDR 0x01 6], ticks := 1, sleeps := [],
            err := [] }) :=
  ⟨by decide,
   (get_data_single_read (regfileWorld [0x00, 0x80, 0x00, 0x01, 0x80, 0x00, 0x00]) 300 1
      State.init { xfers := [statusReq], ticks := 1, sleeps := [], err := [] } 0 0
      (by decide)).1 (by decide),
   by decide⟩

/-- C3: when the transport moves `r` bytes with `0 <= r < len`, `read_regs`
returns -1; and when the data read of `get_data` (issued after a poll that
returned 0) fails or moves fewer bytes than asked for, `get_data` returns -1
and the two outputs `*cap` and `*temp` are what they were before the call. -/
theorem short_read_no_partial_sample (W : World) (slave_addr reg_addr : Nat) (data : List Nat)
    (len : Nat) (s : State) (cap temp : Option Int) (timeout_msec : Int) (fuel : Nat)
    (s0 s1 : State) :
    (0 ≤ (W.transport s.xfers.length (readReq slave_addr reg_addr len)).ret →
      (W.transport s.xfers.length (readReq slave_addr reg_addr len)).ret < len →
      (read_regs W slave_addr reg_addr data len s).1 = -1) ∧
    (cap.isSome ∨ temp.isSome →
      wait_for_ready W timeout_msec fuel s0 = some (0, s1) →
      (W.transport s1.xfers.length (dataReq cap temp)).ret < (dataReq cap temp).wLength →
      ∃ s2, get_data W cap temp timeout_msec fuel s0 = some (-1, cap, temp, s2) ∧
        s2.xfers = s1.xfers ++ [dataReq cap temp]) := by
  constructor
  · intro h0 h1
    exact (read_regs_short W slave_addr reg_addr data len s h1).2 h0
  · intro hreq hw hshort
    rw [get_data_after_poll W cap temp timeout_msec fuel s0 s1 hreq hw]
    simp only []
    have hneg := (read_regs_short W AD7746_SLAVE_ADDR (if cap.isSome then 0x01 else 0x04)
      ((List.range 6).map (fun i => W.junk (i + 1) % 256))
      (if cap.isSome && temp.isSome then 6 else 3) s1 hshort).1
    rw [if_pos hneg]
    refine ⟨_, rfl, ?_⟩
    show (read_regs W AD7746_SLAVE_ADDR (if cap.isSome then 0x01 else 0x04)
      ((List.range 6).map (fun i => W.junk (i + 1) % 256))
      (if cap.isSome && temp.isSome then 6 else 3) s1).2.2.xfers = _
    rw [read_regs_xfers]
    rfl

/-- Witness of C3: a 3-byte read that moves 2 bytes returns -1; and with a
device that is ready but moves only 5 of the 6 data bytes, `get_data` returns
-1 and leaves the outputs at their previous values 111 and 222. -/
theorem short_read_no_partial_sample_witness :
    (read_regs (shortWorld [] 0 2) AD7746_SLAVE_ADDR 0x01 [0, 0, 0] 3 State.init).1 = -1 ∧
    (∃ s2, get_data (shortWorld [0x00, 0x80, 0x00, 0x01, 0x80, 0x00, 0x00] 1 5)
        (some 111) (some 222) 300 1 State.init = some (-1, some 111, some 222, s2) ∧
      s2.xfers = ({ xfers := [statusReq], ticks := 1, sleeps := [], err := [] } : State).xfers
        ++ [dataReq (some 111) (some 222)]) ∧
    get_data (shortWorld [0x00, 0x80, 0x00, 0x01, 0x80, 0x00, 0x00] 1 5)
        (some 111) (some 222) 300 1 State.init
      = some (-1, some 111, some 222,
          { xfers := [statusReq, readReq AD7746_SLAVE_ADDR 0x01 6], ticks := 1, sleeps := [],
            err := [Diag.shortRead 5, Diag.failedDataRegisters] }) ∧
    get_data (shortWorld [0x00, 0x80, 0x00, 0x01, 0x80, 0x00, 0x00] 1 (-4))
        (some 111) (some 222) 300 1 State.init
      = some (-1, some 111, some 222,
          { xfers := [statusReq, readReq AD7746_SLAVE_ADDR 0x01 6], ticks := 1, sleeps := [],
            err := [Diag.failedReadRegister (-4), Diag.failedDataRegisters] }) :=
  ⟨(short_read_no_partial_sample (shortWorld [] 0 2) AD7746_SLAVE_ADDR 0x01 [0, 0, 0] 3
      State.init none none 0 0 State.init State.init).1 (by decide) (by decide),
   (short_read_no_partial_sample (shortWorld [0x00, 0x80, 0x00, 0x01, 0x80, 0x00, 0x00] 1 5)
      0 0 [] 0 State.init (some 111) (some 222) 300 1 State.init
      { xfers := [statusReq], ticks := 1, sleeps := [], err := [] }).2
      (Or.inl rfl) (by decide) (by decide),
   by decide, by decide⟩

/-- The part of the propagation policy that `get_data` implements (lines
252-254): when the poll returns a non-zero value, `get_data` returns that
value at once, issues no further transfer and leaves both outputs alone. -/
theorem get_data_poll_failure (W : World) (cap temp : Option Int) (timeout_msec : Int)
    (fuel : Nat) (s s1 : State) (ret : Int) (hreq : cap.isSome ∨ temp.isSome)
    (hret : ret ≠ 0) (hw : wait_for_ready W timeout_msec fuel s = some (ret, s1)) :
    get_data W cap temp timeout_msec fuel s = some (ret, cap, temp, s1) := by
  unfold get_data
  rw [hw]
  cases cap <;> cases temp <;> simp_all

/-! ### Lengths of the transfers issued -/

theorem read_regs_ret (W : World) (slave_addr reg_addr : Nat) (data : List Nat) (len : Nat)
    (s : State) :
    (read_regs W slave_addr reg_addr data len s).1 =
      (if (W.transport s.xfers.length (readReq slave_addr reg_addr len)).ret < 0 then
        (W.transport s.xfers.length (readReq slave_addr reg_addr len)).ret
       else if (W.transport s.xfers.length (readReq slave_addr reg_addr len)).ret < len then -1
       else 0) := by
  rw [read_regs_eq]
  simp only []
  by_cases h0 : (W.transport s.xfers.length (readReq slave_addr reg_addr len)).ret < 0
  · rw [if_pos h0, if_pos h0]
  · rw [if_neg h0, if_neg h0]
    by_cases h1 : (W.transport s.xfers.length (readReq slave_addr reg_addr len)).ret < len
    · rw [if_pos h1, if_pos (by omega)]
    · rw [if_neg h1, if_neg (by omega)]

theorem write_regs_ret (W : World) (slave_addr reg_addr : Nat) (data : List Nat) (len : Nat)
    (s : State) :
    (write_regs W slave_addr reg_addr data len s).1 =
      (if (W.transport s.xfers.length (writeReq slave_addr reg_addr data len)).ret < 0 then
        (W.transport s.xfers.length (writeReq slave_addr reg_addr data len)).ret
       else if (W.transport s.xfers.length (writeReq slave_addr reg_addr data len)).ret < len
       then -1
       else 0) := by
  rw [write_regs_eq]
  simp only []
  by_cases h0 : (W.transport s.xfers.length (writeReq slave_addr reg_addr data len)).ret < 0
  · rw [if_pos h0, if_pos h0]
  · rw [if_neg h0, if_neg h0]
    by_cases h1 :
        (W.transport s.xfers.length (writeReq slave_addr reg_addr data len)).ret < len
    · rw [if_pos h1, if_pos (by omega)]
    · rw [if_neg h1, if_neg (by omega)]

theorem read_reg_xfers (W : World) (slave_addr reg_addr : Nat) (s : State) :
    (read_reg W slave_addr reg_addr s).2.xfers = s.xfers ++ [readReq slave_addr reg_addr 1] := by
  rw [read_reg_eq]
  simp only []
  split_ifs <;> rfl

theorem wait_for_ready_loop_xfers (W : World) (timeout_msec : Int) (t0 : Timeval) :
    ∀ (fuel : Nat) (s : State) (r : Int) (s1 : State),
      wait_for_ready_loop W timeout_msec t0 fuel s = some (r, s1) →
      ∃ n, s1.xfers = s.xfers ++ List.replicate n statusReq := by
  intro fuel
  induction fuel with
  | zero =>
    intro s r s1 h
    simp [wait_for_ready_loop] at h
  | succ f ih =>
    intro s r s1 h
    rw [wait_for_ready_loop_succ] at h
    simp only [] at h
    by_cases h0 : statusRet W s.xfers.length < 0
    · rw [if_pos h0] at h
      simp only [Option.some.injEq, Prod.mk.injEq] at h
      obtain ⟨_, rfl⟩ := h
      exact ⟨1, rfl⟩
    · rw [if_neg h0] at h
      by_cases h1 : statusRet W s.xfers.length < 1
      · rw [if_pos h1] at h
        simp only [Option.some.injEq, Prod.mk.injEq] at h
        obtain ⟨_, rfl⟩ := h
        exact ⟨1, rfl⟩
      · rw [if_neg h1] at h
        by_cases h4 : statusByte W s.xfers.length &&& 0x4 = 0
        · rw [if_pos h4] at h
          simp only [Option.some.injEq, Prod.mk.injEq] at h
          obtain ⟨_, rfl⟩ := h
          exact ⟨1, rfl⟩
        · rw [if_neg h4] at h
          by_cases hexp : elapsed_usec t0 (W.clock s.ticks) > wrap32 (1000 * timeout_msec)
          · rw [if_pos hexp] at h
            simp only [Option.some.injEq, Prod.mk.injEq] at h
            obtain ⟨_, rfl⟩ := h
            exact ⟨1, rfl⟩
          · rw [if_neg hexp] at h
            obtain ⟨n, hn⟩ := ih _ r s1 h
            have e1 : (usleep (10 * 1000) (polled W s)).xfers = s.xfers ++ [statusReq] := rfl
            rw [e1, List.append_assoc] at hn
            exact ⟨n + 1, hn⟩

theorem get_data_xfers (W : World) (cap temp : Option Int) (timeout_msec : Int) (fuel : Nat)
    (s : State) (r : Int) (c1 t1 : Option Int) (s1 : State)
    (h : get_data W cap temp timeout_msec fuel s = some (r, c1, t1, s1)) :
    ∃ l, s1.xfers = s.xfers ++ l ∧
      ∀ x, x ∈ l → x.wLength = 1 ∨ x.wLength = 3 ∨ x.wLength = 6 := by
  by_cases hnone : (cap.isNone && temp.isNone) = true
  · unfold get_data at h
    rw [if_pos hnone] at h
    simp only [Option.some.injEq, Prod.mk.injEq] at h
    obtain ⟨_, _, _, rfl⟩ := h
    exact ⟨[], by simp, by simp⟩
  · have hreq : cap.isSome ∨ temp.isSome := by
      cases cap <;> cases temp <;> simp_all
    cases hw : wait_for_ready W timeout_msec fuel s with
    | none =>
      unfold get_data at h
      rw [if_neg hnone, hw] at h
      simp at h
    | some q =>
      obtain ⟨ret, s0⟩ := q
      obtain ⟨n, hn⟩ := wait_for_ready_loop_xfers W timeout_msec (W.clock s.ticks) fuel
        (gettimeofday W s).2 ret s0 hw
      have hn1 : s0.xfers = s.xfers ++ List.replicate n statusReq := hn
      have hstat : ∀ x, x ∈ List.replicate n statusReq → x.wLength = 1 := by
        intro x hx
        rw [(List.mem_replicate.mp hx).2]
        rfl
      by_cases hret : ret = 0
      · subst hret
        rw [get_data_after_poll W cap temp timeout_msec fuel s s0 hreq hw] at h
        simp only [] at h
        have hx := read_regs_xfers W AD7746_SLAVE_ADDR (if cap.isSome then 0x01 else 0x04)
          ((List.range 6).map (fun i => W.junk (i + 1) % 256))
          (if cap.isSome && temp.isSome then 6 else 3) s0
        have hlen : (readReq AD7746_SLAVE_ADDR (if cap.isSome then 0x01 else 0x04)
            (if cap.isSome && temp.isSome then 6 else 3)).wLength = 3 ∨
            (readReq AD7746_SLAVE_ADDR (if cap.isSome then 0x01 else 0x04)
            (if cap.isSome && temp.isSome then 6 else 3)).wLength = 6 := by
          show (if cap.isSome && temp.isSome then 6 else 3) = 3 ∨
            (if cap.isSome && temp.isSome then 6 else 3) = 6
          split_ifs
          · exact Or.inr rfl
          · exact Or.inl rfl
        have hfin : s1.xfers = s.xfers ++ (List.replicate n statusReq ++
            [readReq AD7746_SLAVE_ADDR (if cap.isSome then 0x01 else 0x04)
              (if cap.isSome && temp.isSome then 6 else 3)]) := by
          rw [← List.append_assoc, ← hn1, ← hx]
          generalize read_regs W AD7746_SLAVE_ADDR (if cap.isSome then 0x01 else 0x04)
            ((List.range 6).map (fun i => W.junk (i + 1) % 256))
            (if cap.isSome && temp.isSome then 6 else 3) s0 = p at h
          by_cases hneg : p.1 < 0
          · rw [if_pos hneg] at h
            simp only [Option.some.injEq, Prod.mk.injEq] at h
            obtain ⟨_, _, _, rfl⟩ := h
            rfl
          · rw [if_neg hneg] at h
            simp only [Option.some.injEq, Prod.mk.injEq] at h
            obtain ⟨_, _, _, rfl⟩ := h
            rfl
        refine ⟨_, hfin, ?_⟩
        intro x hx
        rcases List.mem_append.mp hx with hx | hx
        · exact Or.inl (hstat x hx)
        · rw [List.mem_singleton.mp hx]
          exact Or.inr hlen
      · rw [get_data_poll_failure W cap temp timeout_msec fuel s s0 ret hreq hret hw] at h
        simp only [Option.some.injEq, Prod.mk.injEq] at h
        obtain ⟨_, _, _, rfl⟩ := h
        exact ⟨_, hn1, fun x hx => Or.inl (hstat x hx)⟩

/-- C1, as amended: `read_regs` and `write_regs` do not check the requested
length.  For every length (0 and 65..255 included), slave address, register
address and buffer, each issues exactly one transport call, of that length,
and returns the transport's result `r` when `r < 0`, -1 when `0 <= r < len`
and 0 otherwise.  The range `[1, 64]` is kept by the callers: every transfer
issued by `read_reg`, `write_reg`, `config_ad7746`, `wait_for_ready` and
`get_data` has length 1, 3 or 6. -/
theorem regs_length_unchecked (W : World) (s : State) :
    (∀ (slave_addr reg_addr : Nat) (data : List Nat) (len : Nat),
      (read_regs W slave_addr reg_addr data len s).2.2.xfers
        = s.xfers ++ [readReq slave_addr reg_addr len] ∧
      (readReq slave_addr reg_addr len).wLength = len ∧
      (read_regs W slave_addr reg_addr data len s).1 =
        (if (W.transport s.xfers.length (readReq slave_addr reg_addr len)).ret < 0 then
          (W.transport s.xfers.length (readReq slave_addr reg_addr len)).ret
         else if (W.transport s.xfers.length (readReq slave_addr reg_addr len)).ret < len
         then -1
         else 0)) ∧
    (∀ (slave_addr reg_addr : Nat) (data : List Nat) (len : Nat),
      (write_regs W slave_addr reg_addr data len s).2.xfers
        = s.xfers ++ [writeReq slave_addr reg_addr data len] ∧
      (writeReq slave_addr reg_addr data len).wLength = len ∧
      (write_regs W slave_addr reg_addr data len s).1 =
        (if (W.transport s.xfers.length (writeReq slave_addr reg_addr data len)).ret < 0 then
          (W.transport s.xfers.length (writeReq slave_addr reg_addr data len)).ret
         else if (W.transport s.xfers.length (writeReq slave_addr reg_addr data len)).ret < len
         then -1
         else 0)) ∧
    (∀ (slave_addr reg_addr : Nat),
      (read_reg W slave_addr reg_addr s).2.xfers
        = s.xfers ++ [readReq slave_addr reg_addr 1]) ∧
    (∀ (slave_addr reg_addr data : Nat),
      (write_reg W slave_addr reg_addr data s).2.xfers
        = s.xfers ++ [writeReq slave_addr reg_addr [data] 1]) ∧
    ((config_ad7746 W s).2.xfers = s.xfers ++ (configWrites ++ [statusReq]) ∧
      ∀ x, x ∈ configWrites ++ [statusReq] → x.wLength = 1) ∧
    (∀ (timeout_msec : Int) (fuel : Nat) (r : Int) (s1 : State),
      wait_for_ready W timeout_msec fuel s = some (r, s1) →
      ∃ l, s1.xfers = s.xfers ++ l ∧ ∀ x, x ∈ l → x.wLength = 1) ∧
    (∀ (cap temp : Option Int) (timeout_msec : Int) (fuel : Nat) (r : Int)
        (c1 t1 : Option Int) (s1 : State),
      get_data W cap temp timeout_msec fuel s = some (r, c1, t1, s1) →
      ∃ l, s1.xfers = s.xfers ++ l ∧
        ∀ x, x ∈ l → x.wLength = 1 ∨ x.wLength = 3 ∨ x.wLength = 6) := by
  refine ⟨?_, ?_, ?_, ?_, ?_, ?_, ?_⟩
  · intro slave_addr reg_addr data len
    exact ⟨read_regs_xfers W slave_addr reg_addr data len s, rfl,
      read_regs_ret W slave_addr reg_addr data len s⟩
  · intro slave_addr reg_addr data len
    exact ⟨write_regs_xfers W slave_addr reg_addr data len s, rfl,
      write_regs_ret W slave_addr reg_addr data len s⟩
  · intro slave_addr reg_addr
    exact read_reg_xfers W slave_addr reg_addr s
  · intro slave_addr reg_addr data
    exact write_reg_xfers W slave_addr reg_addr data s
  · constructor
    · rw [config_ad7746_xfers, List.append_assoc]
    · intro x hx
      simp only [configWrites, List.cons_append, List.nil_append, List.mem_cons,
        List.mem_singleton, List.not_mem_nil, or_false] at hx
      rcases hx with h | h | h | h | h | h | h | h
      all_goals (subst h; rfl)
  · intro timeout_msec fuel r s1 h
    obtain ⟨n, hn⟩ := wait_for_ready_loop_xfers W timeout_msec (W.clock s.ticks) fuel
      (gettimeofday W s).2 r s1 h
    refine ⟨List.replicate n statusReq, hn, ?_⟩
    intro x hx
    rw [(List.mem_replicate.mp hx).2]
    rfl
  · intro cap temp timeout_msec fuel r c1 t1 s1 h
    exact get_data_xfers W cap temp timeout_msec fuel s r c1 t1 s1 h

/-- Witness of C1 as amended: a poll and an acquisition of both channels on a
ready device issue the transfers of lengths 1 and 1, 6; and `read_regs` with
the out-of-range length 65 issues its one transfer of length 65. -/
theorem regs_length_unchecked_witness :
    (∃ l, ({ xfers := [statusReq], ticks := 1, sleeps := [], err := [] } : State).xfers
        = State.init.xfers ++ l ∧ ∀ x, x ∈ l → x.wLength = 1) ∧
    (∃ l,
      ({ xfers := [statusReq, readReq AD7746_SLAVE_ADDR 0x01 6], ticks := 1,
         sleeps := [], err := [] } : State).xfers = State.init.xfers ++ l ∧
      ∀ x, x ∈ l → x.wLength = 1 ∨ x.wLength = 3 ∨ x.wLength = 6) ∧
    (read_regs (regfileWorld [0x00, 0x80, 0x00, 0x01, 0x80, 0x00, 0x00]) AD7746_SLAVE_ADDR 0
        (List.replicate 65 0) 65 State.init).2.2.xfers
      = State.init.xfers ++ [readReq AD7746_SLAVE_ADDR 0 65] :=
  ⟨(regs_length_unchecked (regfileWorld [0x00, 0x80, 0x00, 0x01, 0x80, 0x00, 0x00])
      State.init).2.2.2.2.2.1 300 1 0
      { xfers := [statusReq], ticks := 1, sleeps := [], err := [] } (by decide),
   (regs_length_unchecked (regfileWorld [0x00, 0x80, 0x00, 0x01, 0x80, 0x00, 0x00])
      State.init).2.2.2.2.2.2 (some 0) (some 0) 300 1 0 (some 8388609) (some 8388608)
      { xfers := [statusReq, readReq AD7746_SLAVE_ADDR 0x01 6], ticks := 1, sleeps := [],
        err := [] } (by decide),
   ((regs_length_unchecked (regfileWorld [0x00, 0x80, 0x00, 0x01, 0x80, 0x00, 0x00])
      State.init).1 AD7746_SLAVE_ADDR 0 (List.replicate 65 0) 65).1⟩

end EvalAD7746EB
